import Mathlib

/-!
# Verification of the compio socket layer (`compio-net/src/socket.rs`)

A shallow embedding of the socket handle and its operation lifecycle.
OS-level outcomes (kernel results of submitted operations, `getsockname`,
socket allocation, context finalization) are supplied as explicit oracle
parameters of type `Except Err _`, so every function below is a pure,
executable translation of the corresponding Rust control flow.
-/

deriving instance DecidableEq for Except

namespace Compio

/-- Errors surfaced by the layer: `detached` is the error `try_get` raises when
the handle's native resource has already been released; `os code` is an
OS-level I/O error carrying its native code. -/
inductive Err where
  | detached : Err
  | os : Nat → Err
  deriving DecidableEq, Repr

/-- Immutable native socket address value: an address family tag plus the
OS-native byte encoding (spec Address Value, `socket2::SockAddr`). -/
structure Addr where
  family : Nat
  bytes : List Nat
  deriving DecidableEq, Repr

/-- A `SockAddr` as a Rust object: the address value together with an object
identity, so that `addr.clone()` (a new object, same value) is distinguishable
from the caller's original. -/
structure AddrObj where
  id : Nat
  val : Addr
  deriving DecidableEq, Repr

/-- Embedding of `SockAddr::clone`: a fresh object carrying the same value.
The fresh identity is an explicit parameter. -/
def cloneAddr (freshId : Nat) (a : AddrObj) : AddrObj :=
  { id := freshId, val := a.val }

/-- An owned buffer from the Buffer Contract: an object identity (to state the
ownership round-trip), a capacity, and the logical length cursor.
Modelled from the spec: the Buffer Contract (§4.5) is an external collaborator
whose code is not part of this slice; it exposes a stable region and supports
having its length cursor advanced by a reported byte count. -/
structure Buffer where
  id : Nat
  capacity : Nat
  len : Nat
  deriving DecidableEq, Repr

/-- Modelled from the spec: advancing the buffer's length cursor by exactly
the byte count an operation reports as transferred (Buffer Contract §4.5,
`compio_buf` mutable-buffer advancement used by `map_advanced`). -/
def Buffer.advance (b : Buffer) (n : Nat) : Buffer :=
  { b with len := b.len + n }

/-- The `BufResult(outcome, reclaimed-resource)` pair returned from every
buffer-carrying operation. -/
structure BufResult (α β : Type) where
  res : Except Err α
  buf : β
  deriving DecidableEq, Repr

/-- Modelled from the spec: `BufResultExt::map_advanced` from `compio_driver`
(declared in `socket.rs`'s imports, code outside this slice): on a success
outcome the reclaimed buffer's cursor is advanced by exactly the reported
byte count; on a failure outcome the buffer is handed back unchanged. -/
def mapAdvanced (r : BufResult Nat Buffer) : BufResult Nat Buffer :=
  match r.res with
  | Except.ok n => { res := Except.ok n, buf := r.buf.advance n }
  | Except.error e => { res := Except.error e, buf := r.buf }

/-- `map_advanced` for the `recv_from` result shape, advancing by the byte
count component. Modelled from the spec as `mapAdvanced`. -/
def mapAdvancedAddr (r : BufResult (Nat × Addr) Buffer) : BufResult (Nat × Addr) Buffer :=
  match r.res with
  | Except.ok na => { res := Except.ok na, buf := r.buf.advance na.1 }
  | Except.error e => { res := Except.error e, buf := r.buf }

/-- The native socket resource (`socket2::Socket`): its descriptor, the
domain/type/protocol it was created with, and its blocking mode. -/
structure Socket2 where
  fd : Nat
  domain : Nat
  ty : Nat
  protocol : Option Nat
  nonblocking : Bool
  deriving DecidableEq, Repr

/-- The public socket handle: an `Attacher<Socket2>` that either still holds
its native resource or has had it released (taken by an in-flight close). -/
structure Socket where
  live : Option Socket2
  deriving DecidableEq, Repr

/-- Modelled from the spec: `Attacher::try_get` (from `compio_runtime`, code
outside this slice) yields the native resource, or the detachment error when
the resource has already been released (§7, error taxonomy (2)). -/
def Socket.try_get (s : Socket) : Except Err Socket2 :=
  match s.live with
  | some sock => Except.ok sock
  | none => Except.error Err.detached

/-- Platform configuration: the `cfg` predicates `socket.rs` branches on. -/
structure Platform where
  isUnix : Bool
  isLinux : Bool
  ioUringFeature : Bool
  deriving DecidableEq, Repr

/-- The condition of `Socket::new`'s `cfg!` guard:
`all(unix, not(all(target_os = "linux", feature = "io-uring")))`. -/
def nonblockingPolicy (p : Platform) : Bool :=
  p.isUnix && !(p.isLinux && p.ioUringFeature)

/-- Embedding of `Socket::new(domain, ty, protocol)`.  `newFdRes` is the
oracle for `Socket2::new` (the freshly allocated descriptor, blocking by
default), `setNbRes` the oracle for `set_nonblocking(true)`.  The guard is
the source's `cfg!(all(unix, not(all(target_os = "linux", feature =
"io-uring"))))`. -/
def socketNew (p : Platform) (newFdRes : Except Err Nat) (setNbRes : Except Err Unit)
    (domain ty : Nat) (protocol : Option Nat) : Except Err Socket2 :=
  match newFdRes with
  | Except.error e => Except.error e
  | Except.ok fd =>
    let sock : Socket2 := { fd := fd, domain := domain, ty := ty,
                            protocol := protocol, nonblocking := false }
    if nonblockingPolicy p then
      match setNbRes with
      | Except.error e => Except.error e
      | Except.ok _ => Except.ok { sock with nonblocking := true }
    else
      Except.ok sock

/-! ## Operation objects

Each asynchronous call packages the target descriptor and the moved-in
buffer (and, where present, a cloned address) into an operation object
before submission (`compio_driver::op`). -/

/-- `Recv` / `RecvVectored` / `RecvFrom` / `RecvFromVectored` /
`Send` / `SendVectored`: descriptor plus the moved-in buffer. -/
structure BufOp where
  fd : Nat
  buffer : Buffer
  deriving DecidableEq, Repr

/-- `SendTo` / `SendToVectored`: descriptor, moved-in buffer, and the
cloned target address object. -/
structure SendToOp where
  fd : Nat
  buffer : Buffer
  addr : AddrObj
  deriving DecidableEq, Repr

/-- `Connect`: descriptor plus the cloned target address object. -/
structure ConnectOp where
  fd : Nat
  addr : AddrObj
  deriving DecidableEq, Repr

/-- The two sides `std::net::Shutdown` can name. -/
inductive ShutdownSide where
  | readSide : ShutdownSide
  | writeSide : ShutdownSide
  | bothSides : ShutdownSide
  deriving DecidableEq, Repr

/-- `ShutdownSocket`: descriptor plus which side to half-close. -/
structure ShutdownOp where
  fd : Nat
  how : ShutdownSide
  deriving DecidableEq, Repr

/-- Windows `Accept`: the listener's descriptor plus the descriptor of the
pre-allocated accept socket passed into the call. -/
structure AcceptWinOp where
  fd : Nat
  acceptFd : Nat
  deriving DecidableEq, Repr

/-! ## Data-transfer operations

Each method takes the OS completion outcome as an oracle parameter and
returns the `BufResult` pair handed to the caller together with the
operation object that was submitted (`none` when the method returned
before submitting anything).  The `buf_try!` macro's early return on a
`try_get` failure is the first `match`. -/

/-- Embedding of `Socket::recv`: `buf_try!(try_get)`, build `Recv`, submit,
`into_inner().map_advanced()`. -/
def Socket.recv (s : Socket) (buffer : Buffer) (osRes : Except Err Nat) :
    BufResult Nat Buffer × Option BufOp :=
  match s.try_get with
  | Except.error e => ({ res := Except.error e, buf := buffer }, none)
  | Except.ok inner =>
    let op : BufOp := { fd := inner.fd, buffer := buffer }
    (mapAdvanced { res := osRes, buf := op.buffer }, some op)

/-- Embedding of `Socket::recv_vectored`: same pipeline as `recv` with a
`RecvVectored` operation. -/
def Socket.recv_vectored (s : Socket) (buffer : Buffer) (osRes : Except Err Nat) :
    BufResult Nat Buffer × Option BufOp :=
  match s.try_get with
  | Except.error e => ({ res := Except.error e, buf := buffer }, none)
  | Except.ok inner =>
    let op : BufOp := { fd := inner.fd, buffer := buffer }
    (mapAdvanced { res := osRes, buf := op.buffer }, some op)

/-- Embedding of `Socket::send`: `buf_try!(try_get)`, build `Send`, submit,
`into_inner()` — no `map_advanced`. -/
def Socket.send (s : Socket) (buffer : Buffer) (osRes : Except Err Nat) :
    BufResult Nat Buffer × Option BufOp :=
  match s.try_get with
  | Except.error e => ({ res := Except.error e, buf := buffer }, none)
  | Except.ok inner =>
    let op : BufOp := { fd := inner.fd, buffer := buffer }
    ({ res := osRes, buf := op.buffer }, some op)

/-- Embedding of `Socket::send_vectored`: same pipeline as `send` with a
`SendVectored` operation. -/
def Socket.send_vectored (s : Socket) (buffer : Buffer) (osRes : Except Err Nat) :
    BufResult Nat Buffer × Option BufOp :=
  match s.try_get with
  | Except.error e => ({ res := Except.error e, buf := buffer }, none)
  | Except.ok inner =>
    let op : BufOp := { fd := inner.fd, buffer := buffer }
    ({ res := osRes, buf := op.buffer }, some op)

/-- Embedding of `Socket::recv_from`: `buf_try!(try_get)`, build `RecvFrom`,
submit, `into_inner().map_addr().map_advanced()`.  `sender` is the peer
address the operation's storage holds on success (moved out by `map_addr`;
modelled from the spec: `recv_from` additionally yields the sender's Address
Value). -/
def Socket.recv_from (s : Socket) (buffer : Buffer) (osRes : Except Err Nat)
    (sender : Addr) : BufResult (Nat × Addr) Buffer × Option BufOp :=
  match s.try_get with
  | Except.error e => ({ res := Except.error e, buf := buffer }, none)
  | Except.ok inner =>
    let op : BufOp := { fd := inner.fd, buffer := buffer }
    (mapAdvancedAddr { res := osRes.map (fun n => (n, sender)), buf := op.buffer }, some op)

/-- Embedding of `Socket::recv_from_vectored`: same pipeline as `recv_from`
with a `RecvFromVectored` operation. -/
def Socket.recv_from_vectored (s : Socket) (buffer : Buffer) (osRes : Except Err Nat)
    (sender : Addr) : BufResult (Nat × Addr) Buffer × Option BufOp :=
  match s.try_get with
  | Except.error e => ({ res := Except.error e, buf := buffer }, none)
  | Except.ok inner =>
    let op : BufOp := { fd := inner.fd, buffer := buffer }
    (mapAdvancedAddr { res := osRes.map (fun n => (n, sender)), buf := op.buffer }, some op)

/-- Embedding of `Socket::send_to`: `buf_try!(try_get)`, build
`SendTo::new(fd, buffer, addr.clone())`, submit, `into_inner()`.
`freshId` is the identity of the clone. -/
def Socket.send_to (s : Socket) (buffer : Buffer) (addr : AddrObj) (freshId : Nat)
    (osRes : Except Err Nat) : BufResult Nat Buffer × Option SendToOp :=
  match s.try_get with
  | Except.error e => ({ res := Except.error e, buf := buffer }, none)
  | Except.ok inner =>
    let op : SendToOp := { fd := inner.fd, buffer := buffer, addr := cloneAddr freshId addr }
    ({ res := osRes, buf := op.buffer }, some op)

/-- Embedding of `Socket::send_to_vectored`: same pipeline as `send_to` with
a `SendToVectored` operation. -/
def Socket.send_to_vectored (s : Socket) (buffer : Buffer) (addr : AddrObj) (freshId : Nat)
    (osRes : Except Err Nat) : BufResult Nat Buffer × Option SendToOp :=
  match s.try_get with
  | Except.error e => ({ res := Except.error e, buf := buffer }, none)
  | Except.ok inner =>
    let op : SendToOp := { fd := inner.fd, buffer := buffer, addr := cloneAddr freshId addr }
    ({ res := osRes, buf := op.buffer }, some op)

/-! ## Connection establishment, shutdown, accept -/

/-- The two platform families `socket.rs` branches between with
`#[cfg(windows)]` / `#[cfg(unix)]`. -/
inductive OSFamily where
  | windowsFamily : OSFamily
  | unixFamily : OSFamily
  deriving DecidableEq, Repr

/-- Embedding of `Socket::connect_async`.  Returns the caller-visible result,
the submitted `Connect` operation (`none` when `try_get` failed before
submission), and whether the context-finalization step (`update_context`,
modelled from the spec: the completion-port family's post-completion
bookkeeping whose failure must surface) was run.  `osRes` is the raw
submission outcome, `updRes` the finalization outcome, `freshId` the identity
of `addr.clone()`. -/
def Socket.connect_async (p : OSFamily) (s : Socket) (addr : AddrObj) (freshId : Nat)
    (osRes : Except Err Nat) (updRes : Except Err Unit) :
    Except Err Unit × Option ConnectOp × Bool :=
  match s.try_get with
  | Except.error e => (Except.error e, none, false)
  | Except.ok inner =>
    let op : ConnectOp := { fd := inner.fd, addr := cloneAddr freshId addr }
    match p with
    | OSFamily.windowsFamily =>
      match osRes with
      | Except.error e => (Except.error e, some op, false)
      | Except.ok _ =>
        match updRes with
        | Except.error e => (Except.error e, some op, true)
        | Except.ok _ => (Except.ok (), some op, true)
    | OSFamily.unixFamily => (osRes.map (fun _ => ()), some op, false)

/-- Embedding of `Socket::shutdown`: build
`ShutdownSocket::new(fd, Shutdown::Write)`, submit, `?` on the outcome.
Returns the result, the submitted operation, and the handle as the caller
still holds it afterwards (`&self` receiver; the operation does not release
the resource). -/
def Socket.shutdown (s : Socket) (osRes : Except Err Nat) :
    Except Err Unit × Option ShutdownOp × Socket :=
  match s.try_get with
  | Except.error e => (Except.error e, none, s)
  | Except.ok inner =>
    let op : ShutdownOp := { fd := inner.fd, how := ShutdownSide.writeSide }
    match osRes with
    | Except.error e => (Except.error e, some op, s)
    | Except.ok _ => (Except.ok (), some op, s)

/-- What became of the socket pre-allocated by the windows `accept` path.
Modelled from the spec: a handle destroyed by normal drop is a best-effort
synchronous release of its resource (§3 Socket Handle lifecycle), so a
pre-allocated socket that goes out of scope on an error path is released. -/
inductive PreallocFate where
  | neverCreated : PreallocFate
  | droppedReleased : PreallocFate
  | returnedToCaller : PreallocFate
  deriving DecidableEq, Repr

/-- Embedding of the `#[cfg(windows)]` `Socket::accept`:
`local_addr()?`, pre-allocate `Self::new(local_addr.domain(), type, protocol)?`,
build `Accept::new(self_fd, accept_fd)`, submit, `res?`, `update_context()?`,
`into_addr()?`, return `(accept_sock, addr)`.  Oracles: `localAddrRes` for
`local_addr`, `newFdRes` for the `Socket2::new` allocation inside
`Self::new`, `rawRes` for the raw accept completion, `updRes` for
`update_context`, `intoAddrRes` for `into_addr`.  The components returned
are the caller-visible result, the submitted operation, the fate of the
pre-allocated socket, and whether `update_context` was run.  The platform is
fixed to non-unix (`Platform.isUnix = false`) in `Self::new`'s guard by
taking `p` with that shape at the call sites of the theorems; `Self::new`'s
`set_nonblocking` oracle is passed through unused on this path. -/
def Socket.accept_win (p : Platform) (s : Socket)
    (localAddrRes : Except Err Addr) (newFdRes : Except Err Nat)
    (rawRes : Except Err Nat) (updRes : Except Err Unit)
    (intoAddrRes : Except Err Addr) :
    Except Err (Socket2 × Addr) × Option AcceptWinOp × PreallocFate × Bool :=
  match s.try_get with
  | Except.error e => (Except.error e, none, PreallocFate.neverCreated, false)
  | Except.ok inner =>
    match localAddrRes with
    | Except.error e => (Except.error e, none, PreallocFate.neverCreated, false)
    | Except.ok la =>
      match socketNew p newFdRes (Except.ok ()) la.family inner.ty inner.protocol with
      | Except.error e => (Except.error e, none, PreallocFate.neverCreated, false)
      | Except.ok acceptSock =>
        let op : AcceptWinOp := { fd := inner.fd, acceptFd := acceptSock.fd }
        match rawRes with
        | Except.error e => (Except.error e, some op, PreallocFate.droppedReleased, false)
        | Except.ok _ =>
          match updRes with
          | Except.error e => (Except.error e, some op, PreallocFate.droppedReleased, true)
          | Except.ok _ =>
            match intoAddrRes with
            | Except.error e => (Except.error e, some op, PreallocFate.droppedReleased, true)
            | Except.ok addr =>
              (Except.ok (acceptSock, addr), some op, PreallocFate.returnedToCaller, true)

/-! ## The close lifecycle

`Socket::close(self)` wraps the consumed handle in `ManuallyDrop` and
returns a future whose body — run only if the future is polled — builds a
`CloseSocket` operation and submits it.  We embed this as a small event
machine over a world recording how often, and by which path, the native
resource was released. -/

/-- World state for one handle going through the close path:
how many times the resource was released by an ordinary drop, how many times
by the completion of a submitted `CloseSocket` operation, whether the
`ManuallyDrop` guard has disabled the ordinary drop, and whether the
`CloseSocket` operation has been constructed. -/
structure CloseWorld where
  releasedByDrop : Nat
  releasedByOp : Nat
  guardDisabled : Bool
  opConstructed : Bool
  deriving DecidableEq, Repr

/-- A handle not yet closed: resource held, ordinary drop armed. -/
def initialCloseWorld : CloseWorld :=
  { releasedByDrop := 0, releasedByOp := 0, guardDisabled := false, opConstructed := false }

/-- Embedding of the body of `Socket::close` up to returning the future:
`let this = ManuallyDrop::new(self)` disables the handle's ordinary drop.
The `CloseSocket` operation is not constructed here — it is built inside the
`async move` block, which does not run until the future is polled. -/
def callClose (w : CloseWorld) : CloseWorld :=
  { w with guardDisabled := true }

/-- Events that can happen to the returned future and the captured guard. -/
inductive CloseEvent where
  /-- The future is polled through to completion: the `async move` body runs,
  `CloseSocket::new(fd)` is constructed and submitted, and — modelled from
  the spec: the descriptor is released by the OS-confirmed completion of the
  close operation — the resource is released once by that completion. -/
  | pollToCompletion : CloseEvent
  /-- The future (or an unclosed handle) is dropped: ordinary drop of the
  captured value runs, releasing the resource only if the `ManuallyDrop`
  guard has not disabled it. -/
  | dropValue : CloseEvent
  deriving DecidableEq, Repr

/-- One step of the close-lifecycle machine. -/
def closeStep (w : CloseWorld) : CloseEvent → CloseWorld
  | CloseEvent.pollToCompletion =>
    { w with opConstructed := true, releasedByOp := w.releasedByOp + 1 }
  | CloseEvent.dropValue =>
    if w.guardDisabled then w else { w with releasedByDrop := w.releasedByDrop + 1 }

/-- Run a sequence of events. -/
def closeRun (w : CloseWorld) (es : List CloseEvent) : CloseWorld :=
  es.foldl closeStep w

/-- Total number of times the resource was released. -/
def CloseWorld.totalReleased (w : CloseWorld) : Nat :=
  w.releasedByDrop + w.releasedByOp

/-- Scenario: `close` is called and the returned future is polled to
completion, after which the future (with its guard) is dropped. -/
def closePolledScenario : CloseWorld :=
  closeRun (callClose initialCloseWorld)
    [CloseEvent.pollToCompletion, CloseEvent.dropValue]

/-- Scenario: `close` is called and the returned future is discarded
immediately, never polled: only the drop of the captured guard runs. -/
def closeDiscardedScenario : CloseWorld :=
  closeRun (callClose initialCloseWorld) [CloseEvent.dropValue]

/-! ## Helper predicates for the buffer round-trip contract -/

/-- The result pair hands back the caller's buffer with the cursor advanced by
exactly the reported byte count on a success outcome and unchanged on a
failure outcome. -/
def advancedOnSuccess (b : Buffer) (r : BufResult Nat Buffer) : Prop :=
  (∀ n, r.res = Except.ok n → r.buf = b.advance n) ∧
  (∀ e, r.res = Except.error e → r.buf = b)

/-- As `advancedOnSuccess`, for the `recv_from` result shape whose success
outcome carries a byte count and the sender's address. -/
def advancedOnSuccessFrom (b : Buffer) (r : BufResult (Nat × Addr) Buffer) : Prop :=
  (∀ n a, r.res = Except.ok (n, a) → r.buf = b.advance n) ∧
  (∀ e, r.res = Except.error e → r.buf = b)

/-- Sample live resource used by concrete witnesses and counterexamples. -/
def sampleInner : Socket2 :=
  { fd := 3, domain := 2, ty := 1, protocol := some 6, nonblocking := true }

/-- Sample live handle. -/
def sampleSocket : Socket := { live := some sampleInner }

/-- Sample released handle. -/
def sampleDetached : Socket := { live := none }

/-- Sample buffer with cursor at 4. -/
def sampleBuffer : Buffer := { id := 7, capacity := 16, len := 4 }

/-- Sample address value. -/
def sampleAddr : Addr := { family := 2, bytes := [127, 0, 0, 1, 0, 80] }

/-- Sample address object held by a caller. -/
def sampleAddrObj : AddrObj := { id := 11, val := sampleAddr }

/-- The clone of `sampleAddrObj` with fresh identity 12. -/
def sampleClonedAddr : AddrObj := { id := 12, val := sampleAddr }

/-- The socket the windows accept path pre-allocates over descriptor 9 for
the `sampleSocket` listener (family 2, type 1, protocol 6, blocking). -/
def samplePrealloc : Socket2 :=
  { fd := 9, domain := 2, ty := 1, protocol := some 6, nonblocking := false }

/-- The socket `Socket::new` produces over descriptor 5 on linux with the
io-uring feature (left blocking). -/
def sampleBlocking : Socket2 :=
  { fd := 5, domain := 2, ty := 1, protocol := some 6, nonblocking := false }

/-- A non-unix (completion-port) platform configuration. -/
def winPlatform : Platform :=
  { isUnix := false, isLinux := false, ioUringFeature := false }

/-- The linux-with-io-uring platform configuration. -/
def uringPlatform : Platform :=
  { isUnix := true, isLinux := true, ioUringFeature := true }

end Compio

namespace Compio

/-! ## Theorems -/

/-- The `ManuallyDrop` guard, once armed by `callClose`, stays armed under
every later event, and the ordinary-drop release count never moves. -/
theorem closeRun_guard_invariant (w : CloseWorld) (es : List CloseEvent)
    (h : w.guardDisabled = true) :
    (closeRun w es).guardDisabled = true ∧
    (closeRun w es).releasedByDrop = w.releasedByDrop := by
  induction es generalizing w with
  | nil => exact ⟨h, rfl⟩
  | cons e es ih =>
    have hstep : (closeStep w e).guardDisabled = true ∧
        (closeStep w e).releasedByDrop = w.releasedByDrop := by
      cases e <;> simp [closeStep, h]
    have hrec := ih (closeStep w e) hstep.1
    refine ⟨?_, ?_⟩
    · simpa [closeRun, List.foldl] using hrec.1
    · have : (closeRun (closeStep w e) es).releasedByDrop = w.releasedByDrop := by
        rw [hrec.2, hstep.2]
      simpa [closeRun, List.foldl] using this

/-- C1 counterexample: when the future returned by `close` is discarded
immediately without ever being polled, the close operation is never
constructed and the native resource is released zero times — not exactly
once as the claim states (the `async move` body never runs, and the
`ManuallyDrop` guard has disabled the ordinary drop, exactly as the source
comment intends: the close is cancelled when the future is dropped
immediately). -/
theorem close_discarded_releases_nothing :
    closeDiscardedScenario.opConstructed = false ∧
    closeDiscardedScenario.totalReleased = 0 ∧
    ¬ closeDiscardedScenario.totalReleased = 1 := by
  decide

/-- C1 (amended): polling the future returned by `close` to completion
releases the native resource exactly once, by the completion of the
submitted close operation and never by an ordinary drop; discarding the
future without ever polling it cancels the close, so the operation is never
constructed and the resource is not released at all by this layer. -/
theorem close_release_exactly_once_when_polled :
    closePolledScenario.totalReleased = 1 ∧
    closePolledScenario.releasedByOp = 1 ∧
    closePolledScenario.releasedByDrop = 0 ∧
    closePolledScenario.opConstructed = true ∧
    closeDiscardedScenario.totalReleased = 0 ∧
    closeDiscardedScenario.opConstructed = false := by
  decide

/-- C2: once `close` has been invoked (the handle consumed into the
`ManuallyDrop` guard), the ordinary drop path is a no-op under every
subsequent sequence of events — it never releases the descriptor — so every
release of the resource comes from the completion of the close operation. -/
theorem close_drop_path_is_noop (es : List CloseEvent) :
    (closeRun (callClose initialCloseWorld) es).releasedByDrop = 0 ∧
    (closeRun (callClose initialCloseWorld) es).totalReleased =
      (closeRun (callClose initialCloseWorld) es).releasedByOp := by
  have h := closeRun_guard_invariant (callClose initialCloseWorld) es rfl
  have hdrop : (closeRun (callClose initialCloseWorld) es).releasedByDrop = 0 := by
    simpa [callClose, initialCloseWorld] using h.2
  exact ⟨hdrop, by simp [CloseWorld.totalReleased, hdrop]⟩

/-- C2 witness: the no-op drop fact evaluated on the concrete
discard-immediately event sequence. -/
theorem close_drop_path_is_noop_witness :
    (closeRun (callClose initialCloseWorld) [CloseEvent.dropValue]).releasedByDrop = 0 ∧
    (closeRun (callClose initialCloseWorld) [CloseEvent.dropValue]).totalReleased =
      (closeRun (callClose initialCloseWorld) [CloseEvent.dropValue]).releasedByOp :=
  close_drop_path_is_noop [CloseEvent.dropValue]

/-- C3 counterexample: `Socket::send` applies no `map_advanced` — on a
successful send of 5 bytes the reclaimed buffer's length cursor is still 4,
not 4 + 5 as the claim requires for send. -/
theorem send_success_leaves_cursor_counterexample :
    (Socket.send sampleSocket sampleBuffer (Except.ok 5)).1.res = Except.ok 5 ∧
    (Socket.send sampleSocket sampleBuffer (Except.ok 5)).1.buf.len = 4 ∧
    ¬ (Socket.send sampleSocket sampleBuffer (Except.ok 5)).1.buf.len =
        sampleBuffer.len + 5 := by
  decide

/-- C3 (amended): every one of the eight transfer operations hands back the
very buffer object the caller supplied (identity round-trip), whatever the
outcome; the four receive-type operations advance the length cursor by
exactly the reported byte count on success and leave it unchanged on
failure; the four send-type operations hand the buffer back entirely
unchanged regardless of outcome. -/
theorem transfer_buffer_roundtrip (s : Socket) (b : Buffer) (r : Except Err Nat)
    (a : AddrObj) (sender : Addr) (fresh : Nat) :
    ((Socket.recv s b r).1.buf.id = b.id ∧
     (Socket.recv_vectored s b r).1.buf.id = b.id ∧
     (Socket.recv_from s b r sender).1.buf.id = b.id ∧
     (Socket.recv_from_vectored s b r sender).1.buf.id = b.id ∧
     (Socket.send s b r).1.buf.id = b.id ∧
     (Socket.send_vectored s b r).1.buf.id = b.id ∧
     (Socket.send_to s b a fresh r).1.buf.id = b.id ∧
     (Socket.send_to_vectored s b a fresh r).1.buf.id = b.id) ∧
    (advancedOnSuccess b (Socket.recv s b r).1 ∧
     advancedOnSuccess b (Socket.recv_vectored s b r).1 ∧
     advancedOnSuccessFrom b (Socket.recv_from s b r sender).1 ∧
     advancedOnSuccessFrom b (Socket.recv_from_vectored s b r sender).1) ∧
    ((Socket.send s b r).1.buf = b ∧
     (Socket.send_vectored s b r).1.buf = b ∧
     (Socket.send_to s b a fresh r).1.buf = b ∧
     (Socket.send_to_vectored s b a fresh r).1.buf = b) := by
  obtain ⟨inner | _⟩ := s <;> cases r <;>
    simp [Socket.recv, Socket.recv_vectored, Socket.recv_from,
      Socket.recv_from_vectored, Socket.send, Socket.send_vectored,
      Socket.send_to, Socket.send_to_vectored, Socket.try_get,
      mapAdvanced, mapAdvancedAddr, advancedOnSuccess, advancedOnSuccessFrom,
      Buffer.advance, Except.map]

/-- C3 witness: on a concrete live socket and a successful 5-byte outcome,
the reclaimed recv buffer is the supplied buffer with its cursor moved from
4 to 9, and the reclaimed send buffer is the supplied buffer unchanged. -/
theorem transfer_buffer_roundtrip_witness :
    (Socket.recv sampleSocket sampleBuffer (Except.ok 5)).1.buf =
      { id := 7, capacity := 16, len := 9 } ∧
    (Socket.send sampleSocket sampleBuffer (Except.ok 5)).1.buf = sampleBuffer := by
  have h := transfer_buffer_roundtrip sampleSocket sampleBuffer (Except.ok 5)
    sampleAddrObj sampleAddr 12
  exact ⟨(h.2.1.1.1 5 (by decide)).trans (by decide), h.2.2.1⟩

/-- C4: on a handle whose resource has already been released, every
buffer-carrying operation returns the detachment error as an ordinary
outcome in the result pair, hands the caller's buffer back completely
unmodified, and submits nothing to the driver (no operation object is ever
constructed), whatever completion outcome the driver would have produced. -/
theorem detached_transfer_fails_without_submission (s : Socket) (b : Buffer)
    (r : Except Err Nat) (a : AddrObj) (sender : Addr) (fresh : Nat)
    (h : s.live = none) :
    Socket.recv s b r = ({ res := Except.error Err.detached, buf := b }, none) ∧
    Socket.recv_vectored s b r = ({ res := Except.error Err.detached, buf := b }, none) ∧
    Socket.recv_from s b r sender = ({ res := Except.error Err.detached, buf := b }, none) ∧
    Socket.recv_from_vectored s b r sender =
      ({ res := Except.error Err.detached, buf := b }, none) ∧
    Socket.send s b r = ({ res := Except.error Err.detached, buf := b }, none) ∧
    Socket.send_vectored s b r = ({ res := Except.error Err.detached, buf := b }, none) ∧
    Socket.send_to s b a fresh r = ({ res := Except.error Err.detached, buf := b }, none) ∧
    Socket.send_to_vectored s b a fresh r =
      ({ res := Except.error Err.detached, buf := b }, none) := by
  obtain ⟨_⟩ := s
  cases h
  simp [Socket.recv, Socket.recv_vectored, Socket.recv_from,
    Socket.recv_from_vectored, Socket.send, Socket.send_vectored,
    Socket.send_to, Socket.send_to_vectored, Socket.try_get]

/-- C4 witness: the detached-handle behavior evaluated on the concrete
released handle with a concrete buffer and outcome. -/
theorem detached_transfer_fails_witness :
    Socket.recv sampleDetached sampleBuffer (Except.ok 5) =
      ({ res := Except.error Err.detached, buf := sampleBuffer }, none) ∧
    Socket.send_to sampleDetached sampleBuffer sampleAddrObj 12 (Except.ok 5) =
      ({ res := Except.error Err.detached, buf := sampleBuffer }, none) :=
  ⟨(detached_transfer_fails_without_submission sampleDetached sampleBuffer
      (Except.ok 5) sampleAddrObj sampleAddr 12 rfl).1,
   (detached_transfer_fails_without_submission sampleDetached sampleBuffer
      (Except.ok 5) sampleAddrObj sampleAddr 12 rfl).2.2.2.2.2.2.1⟩

/-- C5: on the completion-port family, `connect_async` runs the
context-finalization step exactly when the raw result was a success, and the
overall result is then the finalization step's own result; a raw failure is
returned as the connect failure with no finalization; on the other family
the raw result is returned directly and no finalization step exists. -/
theorem connect_async_finalization (s : Socket) (inner : Socket2) (a : AddrObj)
    (fresh : Nat) (r : Except Err Nat) (u : Except Err Unit)
    (h : s.live = some inner) :
    (∀ n, r = Except.ok n →
      (Socket.connect_async OSFamily.windowsFamily s a fresh r u).2.2 = true ∧
      (Socket.connect_async OSFamily.windowsFamily s a fresh r u).1 =
        u.map (fun _ => ())) ∧
    (∀ e, r = Except.error e →
      (Socket.connect_async OSFamily.windowsFamily s a fresh r u).1 = Except.error e ∧
      (Socket.connect_async OSFamily.windowsFamily s a fresh r u).2.2 = false) ∧
    ((Socket.connect_async OSFamily.unixFamily s a fresh r u).1 =
        r.map (fun _ => ()) ∧
     (Socket.connect_async OSFamily.unixFamily s a fresh r u).2.2 = false) := by
  obtain ⟨_⟩ := s
  cases h
  refine ⟨?_, ?_, ?_⟩
  · rintro n rfl
    cases u <;> simp [Socket.connect_async, Socket.try_get, Except.map]
  · rintro e rfl
    simp [Socket.connect_async, Socket.try_get]
  · cases r <;> simp [Socket.connect_async, Socket.try_get, Except.map]

/-- C5 witness: finalization behavior evaluated on a concrete live socket,
a successful raw result and a failing finalization step. -/
theorem connect_async_finalization_witness :
    (Socket.connect_async OSFamily.windowsFamily sampleSocket sampleAddrObj 12
        (Except.ok 0) (Except.error (Err.os 10022))).2.2 = true ∧
    (Socket.connect_async OSFamily.windowsFamily sampleSocket sampleAddrObj 12
        (Except.ok 0) (Except.error (Err.os 10022))).1 =
      Except.error (Err.os 10022) :=
  ⟨((connect_async_finalization sampleSocket sampleInner sampleAddrObj 12
      (Except.ok 0) (Except.error (Err.os 10022)) rfl).1 0 rfl).1,
   ((connect_async_finalization sampleSocket sampleInner sampleAddrObj 12
      (Except.ok 0) (Except.error (Err.os 10022)) rfl).1 0 rfl).2⟩

/-- C6: on the completion-port `accept`, whenever an operation is submitted
it carries the descriptor of the socket pre-allocated beforehand, and on the
success path the returned socket is exactly that pre-allocated one — created
with the listener's address family (from its local address), type, and
protocol — with the context-finalization step having been run before the
handle and the peer address are returned. -/
theorem accept_win_preallocates_and_finalizes (p : Platform) (s : Socket)
    (inner : Socket2) (la : Addr) (newFd : Nat) (raw : Except Err Nat)
    (upd : Except Err Unit) (ia : Except Err Addr)
    (h : s.live = some inner) (hp : p.isUnix = false) :
    (∀ op, (Socket.accept_win p s (Except.ok la) (Except.ok newFd) raw upd ia).2.1 =
        some op → op = { fd := inner.fd, acceptFd := newFd }) ∧
    (∀ sock addr,
      (Socket.accept_win p s (Except.ok la) (Except.ok newFd) raw upd ia).1 =
          Except.ok (sock, addr) →
      sock.domain = la.family ∧ sock.ty = inner.ty ∧
      sock.protocol = inner.protocol ∧ sock.fd = newFd ∧
      (Socket.accept_win p s (Except.ok la) (Except.ok newFd) raw upd ia).2.1 =
        some { fd := inner.fd, acceptFd := sock.fd } ∧
      (Socket.accept_win p s (Except.ok la) (Except.ok newFd) raw upd ia).2.2.2 = true) := by
  obtain ⟨_⟩ := s
  cases h
  have hnb : nonblockingPolicy p = false := by
    simp [nonblockingPolicy, hp]
  cases raw <;> cases upd <;> cases ia <;>
    simp [Socket.accept_win, Socket.try_get, socketNew, hnb]

/-- C6 witness: the success path evaluated on a concrete non-unix platform,
listener, pre-allocated descriptor 9 and successful completion: the
returned socket is the pre-allocated one (family 2, type 1, protocol 6),
the operation carried its descriptor, and finalization ran. -/
theorem accept_win_preallocates_witness :
    samplePrealloc.domain = sampleAddr.family ∧
    samplePrealloc.ty = sampleInner.ty ∧
    samplePrealloc.protocol = sampleInner.protocol ∧
    samplePrealloc.fd = 9 ∧
    (Socket.accept_win winPlatform sampleSocket (Except.ok sampleAddr)
        (Except.ok 9) (Except.ok 0) (Except.ok ()) (Except.ok sampleAddr)).2.1 =
      some { fd := sampleInner.fd, acceptFd := samplePrealloc.fd } ∧
    (Socket.accept_win winPlatform sampleSocket (Except.ok sampleAddr)
        (Except.ok 9) (Except.ok 0) (Except.ok ()) (Except.ok sampleAddr)).2.2.2 = true :=
  (accept_win_preallocates_and_finalizes winPlatform
    sampleSocket sampleInner sampleAddr 9 (Except.ok 0) (Except.ok ())
    (Except.ok sampleAddr) rfl rfl).2 samplePrealloc sampleAddr (by decide)

/-- C7: on the completion-port `accept`, every failure occurring after the
socket was pre-allocated — raw accept failure, context-finalization failure,
or address-extraction failure — short-circuits with that first failure as
the overall result, and the pre-allocated socket is dropped and thereby
released, never leaked (and a raw failure stops before finalization). -/
theorem accept_win_failure_releases_prealloc (p : Platform) (s : Socket)
    (inner : Socket2) (la : Addr) (newFd : Nat) (raw : Except Err Nat)
    (upd : Except Err Unit) (ia : Except Err Addr) (h : s.live = some inner) :
    (∀ e, raw = Except.error e →
      (Socket.accept_win p s (Except.ok la) (Except.ok newFd) raw upd ia).1 =
          Except.error e ∧
      (Socket.accept_win p s (Except.ok la) (Except.ok newFd) raw upd ia).2.2.1 =
          PreallocFate.droppedReleased ∧
      (Socket.accept_win p s (Except.ok la) (Except.ok newFd) raw upd ia).2.2.2 = false) ∧
    (∀ n e, raw = Except.ok n → upd = Except.error e →
      (Socket.accept_win p s (Except.ok la) (Except.ok newFd) raw upd ia).1 =
          Except.error e ∧
      (Socket.accept_win p s (Except.ok la) (Except.ok newFd) raw upd ia).2.2.1 =
          PreallocFate.droppedReleased) ∧
    (∀ n e, raw = Except.ok n → upd = Except.ok () → ia = Except.error e →
      (Socket.accept_win p s (Except.ok la) (Except.ok newFd) raw upd ia).1 =
          Except.error e ∧
      (Socket.accept_win p s (Except.ok la) (Except.ok newFd) raw upd ia).2.2.1 =
          PreallocFate.droppedReleased) := by
  obtain ⟨_⟩ := s
  cases h
  refine ⟨?_, ?_, ?_⟩
  · rintro e rfl
    cases hpol : nonblockingPolicy p <;>
      simp [Socket.accept_win, Socket.try_get, socketNew, hpol]
  · rintro n e rfl rfl
    cases hpol : nonblockingPolicy p <;>
      simp [Socket.accept_win, Socket.try_get, socketNew, hpol]
  · rintro n e rfl rfl rfl
    cases hpol : nonblockingPolicy p <;>
      simp [Socket.accept_win, Socket.try_get, socketNew, hpol]

/-- C7 witness: the cleanup behavior evaluated at a concrete raw accept
failure after the socket was pre-allocated. -/
theorem accept_win_failure_releases_witness :
    (Socket.accept_win { isUnix := false, isLinux := false, ioUringFeature := false }
        sampleSocket (Except.ok sampleAddr) (Except.ok 9)
        (Except.error (Err.os 10054)) (Except.ok ()) (Except.ok sampleAddr)).1 =
      Except.error (Err.os 10054) ∧
    (Socket.accept_win { isUnix := false, isLinux := false, ioUringFeature := false }
        sampleSocket (Except.ok sampleAddr) (Except.ok 9)
        (Except.error (Err.os 10054)) (Except.ok ()) (Except.ok sampleAddr)).2.2.1 =
      PreallocFate.droppedReleased ∧
    (Socket.accept_win { isUnix := false, isLinux := false, ioUringFeature := false }
        sampleSocket (Except.ok sampleAddr) (Except.ok 9)
        (Except.error (Err.os 10054)) (Except.ok ()) (Except.ok sampleAddr)).2.2.2 =
      false :=
  (accept_win_failure_releases_prealloc
    { isUnix := false, isLinux := false, ioUringFeature := false }
    sampleSocket sampleInner sampleAddr 9 (Except.error (Err.os 10054))
    (Except.ok ()) (Except.ok sampleAddr) rfl).1 (Err.os 10054) rfl

/-- C8: a socket freshly allocated by `Socket::new` ends up non-blocking
exactly when the platform is unix and not linux-with-io-uring: on every unix
platform except the io-uring backend it is set non-blocking, and on linux
with the io-uring feature it is left blocking. -/
theorem new_socket_mode_policy (p : Platform) (fd d t : Nat) (pr : Option Nat)
    (sock : Socket2)
    (h : socketNew p (Except.ok fd) (Except.ok ()) d t pr = Except.ok sock) :
    sock.nonblocking = (p.isUnix && !(p.isLinux && p.ioUringFeature)) ∧
    (p.isUnix = true →
      (sock.nonblocking = false ↔ (p.isLinux = true ∧ p.ioUringFeature = true))) := by
  have hs : sock.nonblocking = nonblockingPolicy p := by
    cases hpol : nonblockingPolicy p <;>
      simp [socketNew, hpol] at h <;> simp [← h]
  constructor
  · simpa [nonblockingPolicy] using hs
  · intro hu
    rw [hs]
    cases hl : p.isLinux <;> cases hq : p.ioUringFeature <;>
      simp [nonblockingPolicy, hu, hl, hq]

/-- C8 witness: the mode policy evaluated on linux with io-uring via a
concrete successful allocation — the created socket stays blocking. -/
theorem new_socket_mode_policy_witness :
    socketNew uringPlatform (Except.ok 5) (Except.ok ()) 2 1 (some 6) =
      Except.ok sampleBlocking ∧
    sampleBlocking.nonblocking = false := by
  refine ⟨by decide, ?_⟩
  have hmode := (new_socket_mode_policy uringPlatform 5 2 1 (some 6)
    sampleBlocking (by decide)).1
  rw [hmode]
  simp [uringPlatform]

/-- C9: `shutdown` on a live handle submits a `ShutdownSocket` operation
requesting a half-close of exactly the write side of the socket, and the
handle still holds its resource afterwards (`try_get` still yields it), for
every completion outcome. -/
theorem shutdown_write_side_keeps_resource (s : Socket) (inner : Socket2)
    (r : Except Err Nat) (h : s.live = some inner) :
    (Socket.shutdown s r).2.1 =
      some { fd := inner.fd, how := ShutdownSide.writeSide } ∧
    (Socket.shutdown s r).2.2 = s ∧
    ((Socket.shutdown s r).2.2).try_get = Except.ok inner := by
  obtain ⟨_⟩ := s
  cases h
  cases r <;> simp [Socket.shutdown, Socket.try_get]

/-- C9 witness: shutdown evaluated on the concrete live handle with a
successful completion. -/
theorem shutdown_write_side_witness :
    (Socket.shutdown sampleSocket (Except.ok 0)).2.1 =
      some { fd := sampleInner.fd, how := ShutdownSide.writeSide } ∧
    (Socket.shutdown sampleSocket (Except.ok 0)).2.2 = sampleSocket ∧
    ((Socket.shutdown sampleSocket (Except.ok 0)).2.2).try_get =
      Except.ok sampleInner :=
  shutdown_write_side_keeps_resource sampleSocket sampleInner (Except.ok 0) rfl

/-- C10: `connect_async`, `send_to` and `send_to_vectored` place a clone of
the caller's address into the operation object: whenever an operation is
submitted it holds an address object with the caller's address value but the
fresh clone identity (so the caller's own address object is left intact and
is not consumed into the operation), and the result pair returns the
caller's buffer, never the address. -/
theorem addr_cloned_into_op (p : OSFamily) (s : Socket) (inner : Socket2)
    (b : Buffer) (a : AddrObj) (fresh : Nat) (r : Except Err Nat)
    (u : Except Err Unit) (h : s.live = some inner) :
    (∀ op, (Socket.connect_async p s a fresh r u).2.1 = some op →
      op.addr.val = a.val ∧ op.addr.id = fresh) ∧
    (∀ op, (Socket.send_to s b a fresh r).2 = some op →
      op.addr.val = a.val ∧ op.addr.id = fresh) ∧
    (∀ op, (Socket.send_to_vectored s b a fresh r).2 = some op →
      op.addr.val = a.val ∧ op.addr.id = fresh) ∧
    (Socket.send_to s b a fresh r).1.buf.id = b.id ∧
    (Socket.send_to_vectored s b a fresh r).1.buf.id = b.id := by
  obtain ⟨_⟩ := s
  cases h
  refine ⟨?_, ?_, ?_, ?_, ?_⟩ <;>
    cases p <;> cases r <;> cases u <;>
      simp [Socket.connect_async, Socket.send_to, Socket.send_to_vectored,
        Socket.try_get, cloneAddr]

/-- C10 witness: the cloned address observed in a concrete submitted
`SendTo` operation — same value as the caller's object, fresh identity 12
(the caller's object keeps identity 11). -/
theorem addr_cloned_into_op_witness :
    (Socket.send_to sampleSocket sampleBuffer sampleAddrObj 12 (Except.ok 5)).2 =
      some { fd := 3, buffer := sampleBuffer, addr := sampleClonedAddr } ∧
    sampleClonedAddr.val = sampleAddrObj.val ∧
    sampleClonedAddr.id = 12 := by
  have h := addr_cloned_into_op OSFamily.unixFamily sampleSocket sampleInner
    sampleBuffer sampleAddrObj 12 (Except.ok 5) (Except.ok ()) rfl
  exact ⟨by decide,
    h.2.1 { fd := 3, buffer := sampleBuffer, addr := sampleClonedAddr } (by decide)⟩

end Compio
